import Mathlib

/-!
Verification of `generate_icons.py`, a script that procedurally draws three
square PNG icons (16×16, 48×48, 128×128) showing a magnifying-glass-with-arrow
motif on a solid green background and writes them to `icons/iconS.png`.

The embedding below translates the script's arithmetic exactly:
Python's `//` on the nonnegative operands used here is floor division on `Int`,
and the single floating-point expression `int(circle_radius * 0.7)` is modelled
by exact IEEE-754 binary64 arithmetic (round to nearest, ties to even).
The Pillow drawing calls (`ellipse` with an outline, `line`, `polygon`) are
modelled as operations that set every pixel of a geometric cover region to the
operation's solid color, leaving all other pixels unchanged; PNG encoding is
modelled by recording the save format string.
-/

namespace GenerateIcons

/-- Python floor division `a // b` (both operands here are nonnegative). -/
def pyDiv (a b : Int) : Int := Int.fdiv a b

/-- The significand of the IEEE-754 binary64 value nearest to 0.7:
`0.7 = 6305039478318694 / 2^53`. -/
def double07num : Nat := 6305039478318694

/-- Bit length of a natural number, computed with explicit fuel so the kernel
can evaluate it. -/
def bitLenAux : Nat → Nat → Nat
  | 0, _ => 0
  | fuel + 1, n => if n = 0 then 0 else bitLenAux fuel (n / 2) + 1

/-- Bit length of a natural number (0 for 0). -/
def bitLen (n : Nat) : Nat := bitLenAux 128 n

/-- Round a natural number to 53 significant bits, ties to even: the rounding
step binary64 multiplication performs on an exact integer product. -/
def roundSig53 (v : Nat) : Nat :=
  if v < 2 ^ 53 then v
  else
    let k := bitLen v - 53
    let q := v / 2 ^ k
    let r := v % 2 ^ k
    let h := 2 ^ (k - 1)
    let q' := if h < r ∨ (r = h ∧ q % 2 = 1) then q + 1 else q
    q' * 2 ^ k

/-- Python `int(r * 0.7)` for a nonnegative integer `r`: the exact binary64
product `r * 0.7` (rounded to nearest, ties to even) truncated toward zero.
Every call site in the script passes a nonnegative radius. -/
def int07 (r : Int) : Int :=
  Int.ofNat (roundSig53 (r.toNat * double07num) / 2 ^ 53)

/-- An RGBA color with 8-bit channels. -/
structure Color where
  r : Nat
  g : Nat
  b : Nat
  a : Nat
deriving DecidableEq

/-- The white used for every drawn shape: `(255, 255, 255, 255)`. -/
def white : Color := ⟨255, 255, 255, 255⟩

/-- The fixed background, `(46, 182, 125, 255)` ("Slack green"). -/
def slackGreen : Color := ⟨46, 182, 125, 255⟩

/-- Square of an integer. -/
def sq (a : Int) : Int := a * a

/-- A pixel `(px, py)` is covered by the outline of the ellipse inscribed in
the bounding box `[x0, y0, x1, y1]` drawn with stroke width `w`: it lies inside
or on the outer ellipse but not strictly inside the ellipse shrunk by `w`.
Coordinates are doubled so that the center `((x0+x1)/2, (y0+y1)/2)` stays
integral. -/
def ellipseOutlineCovers (x0 y0 x1 y1 w px py : Int) : Bool :=
  let dx := 2 * px - (x0 + x1)
  let dy := 2 * py - (y0 + y1)
  let rx := x1 - x0
  let ry := y1 - y0
  let rxi := rx - 2 * w
  let ryi := ry - 2 * w
  decide (sq dx * sq ry + sq dy * sq rx ≤ sq rx * sq ry) &&
    !(decide (0 ≤ rxi) && decide (0 ≤ ryi) &&
      decide (sq dx * sq ryi + sq dy * sq rxi < sq rxi * sq ryi))

/-- A pixel `(px, py)` is covered by the stroked segment from `(x0, y0)` to
`(x1, y1)` of width `w`: its distance to the segment is at most `w / 2`.
Stated with integers only: `4·dist²·d² ≤ w²·d²` where `d` is the squared
segment length and the closest-point parameter is clamped to the segment. -/
def segmentCovers (x0 y0 x1 y1 w px py : Int) : Bool :=
  let vx := x1 - x0
  let vy := y1 - y0
  let wx := px - x0
  let wy := py - y0
  let d := vx * vx + vy * vy
  if d = 0 then decide (4 * (wx * wx + wy * wy) ≤ w * w)
  else
    let n := max 0 (min d (wx * vx + wy * vy))
    let ex := wx * d - n * vx
    let ey := wy * d - n * vy
    decide (4 * (ex * ex + ey * ey) ≤ w * w * d * d)

/-- Signed cross product of `(ax, ay)` and `(bx, by)`. -/
def cross (ax ay bx by' : Int) : Int := ax * by' - ay * bx

/-- A pixel `p` is covered by the filled triangle `a b c` when it is on the
same side of (or on) all three edges. -/
def triangleCovers (a b c p : Int × Int) : Bool :=
  let c1 := cross (b.1 - a.1) (b.2 - a.2) (p.1 - a.1) (p.2 - a.2)
  let c2 := cross (c.1 - b.1) (c.2 - b.2) (p.1 - b.1) (p.2 - b.2)
  let c3 := cross (a.1 - c.1) (a.2 - c.2) (p.1 - c.1) (p.2 - c.2)
  decide ((0 ≤ c1 ∧ 0 ≤ c2 ∧ 0 ≤ c3) ∨ (c1 ≤ 0 ∧ c2 ≤ 0 ∧ c3 ≤ 0))

/-- One Pillow drawing call made by `create_icon`: an ellipse outline, a
stroked line, or a filled polygon, each with its solid color. -/
inductive DrawOp where
  | ellipseOutline (x0 y0 x1 y1 : Int) (outline : Color) (width : Int)
  | segment (x0 y0 x1 y1 : Int) (fill : Color) (width : Int)
  | polygon (pts : List (Int × Int)) (fill : Color)

/-- The solid color a drawing operation paints with. -/
def DrawOp.color : DrawOp → Color
  | .ellipseOutline _ _ _ _ c _ => c
  | .segment _ _ _ _ c _ => c
  | .polygon _ c => c

/-- Whether a drawing operation covers the pixel `(px, py)`. The script's only
polygon is a triangle; an empty or non-triangle vertex list covers nothing. -/
def DrawOp.covers : DrawOp → Int → Int → Bool
  | .ellipseOutline x0 y0 x1 y1 _ w, px, py => ellipseOutlineCovers x0 y0 x1 y1 w px py
  | .segment x0 y0 x1 y1 _ w, px, py => segmentCovers x0 y0 x1 y1 w px py
  | .polygon [a, b, c] _, px, py => triangleCovers a b c (px, py)
  | .polygon _ _, _, _ => false

/-- Paint a pixel: apply each operation in order, replacing the current color
with the operation's color wherever the operation covers the pixel. -/
def renderPixel (bg : Color) : List DrawOp → Int → Int → Color
  | [], _, _ => bg
  | op :: rest, x, y =>
      renderPixel (if op.covers x y then op.color else bg) rest x y

/-- An in-memory raster image: mode string, dimensions, and pixel contents. -/
structure PILImage where
  mode : String
  width : Int
  height : Int
  pixel : Int → Int → Color

/-- `padding = size // 6`. -/
def padding (size : Int) : Int := pyDiv size 6

/-- `circle_radius = size // 3`. -/
def circle_radius (size : Int) : Int := pyDiv size 3

/-- `circle_x = size // 2 - padding // 2`. -/
def circle_x (size : Int) : Int := pyDiv size 2 - pyDiv (padding size) 2

/-- `circle_y = size // 2 - padding // 2`. -/
def circle_y (size : Int) : Int := pyDiv size 2 - pyDiv (padding size) 2

/-- Stroke width of the magnifying-glass circle: `max(2, size // 16)`. -/
def circle_width (size : Int) : Int := max 2 (pyDiv size 16)

/-- Stroke width of the handle line: `max(2, size // 16)`. -/
def handle_width (size : Int) : Int := max 2 (pyDiv size 16)

/-- `handle_length = size // 4`. -/
def handle_length (size : Int) : Int := pyDiv size 4

/-- `handle_start_x = circle_x + int(circle_radius * 0.7)`. -/
def handle_start_x (size : Int) : Int := circle_x size + int07 (circle_radius size)

/-- `handle_start_y = circle_y + int(circle_radius * 0.7)`. -/
def handle_start_y (size : Int) : Int := circle_y size + int07 (circle_radius size)

/-- `arrow_size = size // 6`. -/
def arrow_size (size : Int) : Int := pyDiv size 6

/-- `arrow_x = circle_x`. -/
def arrow_x (size : Int) : Int := circle_x size

/-- `arrow_y = circle_y`. -/
def arrow_y (size : Int) : Int := circle_y size

/-- Stroke width of the arrow body: `max(1, size // 24)`. -/
def arrow_width (size : Int) : Int := max 1 (pyDiv size 24)

/-- Upper endpoint of the arrow body: `(arrow_x, arrow_y - arrow_size // 2)`. -/
def arrowBodyP1 (size : Int) : Int × Int :=
  (arrow_x size, arrow_y size - pyDiv (arrow_size size) 2)

/-- Lower endpoint of the arrow body: `(arrow_x, arrow_y + arrow_size // 2)`. -/
def arrowBodyP2 (size : Int) : Int × Int :=
  (arrow_x size, arrow_y size + pyDiv (arrow_size size) 2)

/-- Arrow-head tip: `(arrow_x, arrow_y + arrow_size // 2 + size // 16)`. -/
def arrowTip (size : Int) : Int × Int :=
  (arrow_x size, arrow_y size + pyDiv (arrow_size size) 2 + pyDiv size 16)

/-- Left base vertex of the arrow head:
`(arrow_x - arrow_size // 3, arrow_y + arrow_size // 4)`. -/
def arrowBaseL (size : Int) : Int × Int :=
  (arrow_x size - pyDiv (arrow_size size) 3, arrow_y size + pyDiv (arrow_size size) 4)

/-- Right base vertex of the arrow head:
`(arrow_x + arrow_size // 3, arrow_y + arrow_size // 4)`. -/
def arrowBaseR (size : Int) : Int × Int :=
  (arrow_x size + pyDiv (arrow_size size) 3, arrow_y size + pyDiv (arrow_size size) 4)

/-- The four drawing calls `create_icon` makes, in source order: circle
outline, handle line, arrow-body line, arrow-head polygon. -/
def iconOps (size : Int) : List DrawOp :=
  [ .ellipseOutline (circle_x size - circle_radius size) (circle_y size - circle_radius size)
      (circle_x size + circle_radius size) (circle_y size + circle_radius size)
      white (circle_width size),
    .segment (handle_start_x size) (handle_start_y size)
      (handle_start_x size + handle_length size) (handle_start_y size + handle_length size)
      white (handle_width size),
    .segment (arrowBodyP1 size).1 (arrowBodyP1 size).2
      (arrowBodyP2 size).1 (arrowBodyP2 size).2
      white (arrow_width size),
    .polygon [arrowTip size, arrowBaseL size, arrowBaseR size] white ]

/-- `create_icon(size)`: a fresh `size × size` RGBA image filled with the
green background, with the four shapes drawn on top. -/
def create_icon (size : Int) : PILImage :=
  { mode := "RGBA"
    width := size
    height := size
    pixel := fun x y => renderPixel slackGreen (iconOps size) x y }

/-- Whether any of the drawing operations covers the pixel `(x, y)`. -/
def coveredAny (ops : List DrawOp) (x y : Int) : Bool :=
  ops.any (fun op => op.covers x y)

/-- The fixed size list of `main`: `sizes = [16, 48, 128]`. -/
def sizes : List Int := [16, 48, 128]

/-- The output path `f"icons/icon{size}.png"`. -/
def iconFilename (size : Int) : String := "icons/icon" ++ toString size ++ ".png"

/-- One file written by `img.save(filename, 'PNG')`: path, format, image. -/
structure SavedFile where
  name : String
  format : String
  img : PILImage

/-- The file written for one size: `create_icon(size)` saved as PNG at
`icons/icon{size}.png`. -/
def mkSaved (size : Int) : SavedFile := ⟨iconFilename size, "PNG", create_icon size⟩

/-- The files `main` writes when every save succeeds, in loop order. -/
def mainSaves : List SavedFile := sizes.map mkSaved

/-- `os.makedirs(path, exist_ok=ok)` on a filesystem modelled as the list of
existing directories: create the directory if absent; if present, succeed
without change when `exist_ok` is set and raise `FileExistsError` otherwise. -/
def makedirs (dirs : List String) (path : String) (ok : Bool) :
    Except String (List String) :=
  if path ∈ dirs then
    if ok then .ok dirs else .error "FileExistsError"
  else .ok (path :: dirs)

/-- The directory creation `main` performs: `os.makedirs("icons", exist_ok=True)`. -/
def mainMakedirs (dirs : List String) : Except String (List String) :=
  makedirs dirs "icons" true

/-- The `for size in sizes` loop of `main`, parametrized by which saves
succeed. A failing save raises: the loop stops, the error records the failing
path and the files already written, and no later size is processed. -/
def mainLoop (saveOk : String → Bool) :
    List Int → List SavedFile → Except (String × List SavedFile) (List SavedFile)
  | [], acc => .ok acc.reverse
  | s :: rest, acc =>
      if saveOk (iconFilename s) then mainLoop saveOk rest (mkSaved s :: acc)
      else .error (iconFilename s, acc.reverse)

/-- The lines the `except ImportError` guard prints before `exit(1)`. -/
def importGuardLines : List String :=
  [ "Pillow is required. Install with: pip install Pillow",
    "\nAlternatively, you can create icons manually:",
    "- icon16.png (16x16 pixels)",
    "- icon48.png (48x48 pixels)",
    "- icon128.png (128x128 pixels)" ]

/-- The lines `main` prints on a fully successful run. -/
def mainLines : List String :=
  sizes.map (fun s => "Created " ++ iconFilename s) ++
    [ "\nIcons generated successfully!",
      "You can now load the extension in Chrome." ]

/-- Observable outcome of one process run: exit status, standard output, and
the files written. -/
structure ScriptResult where
  exitCode : Nat
  stdout : List String
  written : List SavedFile

/-- Running the script, parametrized by whether `from PIL import ...`
succeeds. On `ImportError` the guard prints its guidance and calls `exit(1)`
before any filesystem operation; otherwise `main` runs to completion (all
saves succeeding) and the process exits with status 0. -/
def script (pillowAvailable : Bool) : ScriptResult :=
  if pillowAvailable then
    { exitCode := 0, stdout := mainLines, written := mainSaves }
  else
    { exitCode := 1, stdout := importGuardLines, written := [] }

/-- The corner points `create_icon` passes to the drawing calls: the two
bounding-box corners of the ellipse, both endpoints of the handle line, both
endpoints of the arrow-body line, and the three arrow-head vertices. -/
def iconCoordPoints (size : Int) : List (Int × Int) :=
  [ (circle_x size - circle_radius size, circle_y size - circle_radius size),
    (circle_x size + circle_radius size, circle_y size + circle_radius size),
    (handle_start_x size, handle_start_y size),
    (handle_start_x size + handle_length size, handle_start_y size + handle_length size),
    arrowBodyP1 size, arrowBodyP2 size,
    arrowTip size, arrowBaseL size, arrowBaseR size ]

/-- A point lies within the image bounds `[0, size)` in both coordinates. -/
def inBounds (size : Int) (p : Int × Int) : Bool :=
  decide (0 ≤ p.1 ∧ p.1 < size ∧ 0 ≤ p.2 ∧ p.2 < size)

/-- Rendering over operations that all paint `white` yields either the
starting color or `white`. -/
lemma renderPixel_bg_or_white (ops : List DrawOp)
    (hw : ∀ op ∈ ops, op.color = white) (bg : Color) (x y : Int) :
    renderPixel bg ops x y = bg ∨ renderPixel bg ops x y = white := by
  induction ops generalizing bg with
  | nil => exact Or.inl rfl
  | cons op rest ih =>
      have hop := hw op (List.mem_cons_self op rest)
      have hw' : ∀ o ∈ rest, o.color = white := fun o ho =>
        hw o (List.mem_cons_of_mem op ho)
      by_cases hc : op.covers x y
      · rcases ih hw' op.color with h | h
        · exact Or.inr (by rw [renderPixel, if_pos hc, h, hop])
        · exact Or.inr (by rw [renderPixel, if_pos hc, h])
      · rcases ih hw' bg with h | h
        · exact Or.inl (by rw [renderPixel, if_neg hc, h])
        · exact Or.inr (by rw [renderPixel, if_neg hc, h])

/-- A pixel no operation covers keeps the background color. -/
lemma renderPixel_not_covered (ops : List DrawOp) (x y : Int)
    (h : coveredAny ops x y = false) (bg : Color) :
    renderPixel bg ops x y = bg := by
  induction ops generalizing bg with
  | nil => rfl
  | cons op rest ih =>
      rw [coveredAny, List.any_cons, Bool.or_eq_false_iff] at h
      rw [renderPixel, if_neg (by simp [h.1])]
      exact ih h.2 bg

/-- Once the running color is `white` and every operation paints `white`, the
rendered pixel stays `white`. -/
lemma renderPixel_white (ops : List DrawOp)
    (hw : ∀ op ∈ ops, op.color = white) (x y : Int) :
    renderPixel white ops x y = white := by
  rcases renderPixel_bg_or_white ops hw white x y with h | h <;> exact h

/-- A pixel some operation covers is rendered `white` when every operation
paints `white`. -/
lemma renderPixel_covered (ops : List DrawOp) (x y : Int)
    (h : coveredAny ops x y = true)
    (hw : ∀ op ∈ ops, op.color = white) (bg : Color) :
    renderPixel bg ops x y = white := by
  induction ops generalizing bg with
  | nil => simp [coveredAny] at h
  | cons op rest ih =>
      have hop := hw op (List.mem_cons_self op rest)
      have hw' : ∀ o ∈ rest, o.color = white := fun o ho =>
        hw o (List.mem_cons_of_mem op ho)
      rw [coveredAny, List.any_cons] at h
      by_cases hc : op.covers x y
      · rw [renderPixel, if_pos hc, hop]
        exact renderPixel_white rest hw' x y
      · have hrest : coveredAny rest x y = true := by
          rcases Bool.or_eq_true_iff.mp h with h1 | h1
          · exact absurd h1 hc
          · exact h1
        rw [renderPixel, if_neg hc]
        exact ih hrest hw' bg

/-- Every drawing operation of `create_icon` paints `white`. -/
lemma iconOps_color_white (size : Int) :
    ∀ op ∈ iconOps size, op.color = white := by
  intro op hop
  simp only [iconOps, List.mem_cons, List.not_mem_nil, or_false] at hop
  rcases hop with h | h | h | h <;> subst h <;> rfl

/-- `mainLoop`, met with a failing save, raises at that save: the error names
the failing file, the files written are the accumulator plus exactly those
for the sizes before the failure, and the sizes after it are never reached. -/
lemma mainLoop_error_of_fail (saveOk : String → Bool) (pre : List Int)
    (hpre : ∀ t ∈ pre, saveOk (iconFilename t) = true) (s : Int)
    (hfail : saveOk (iconFilename s) = false) (rest : List Int)
    (acc : List SavedFile) :
    mainLoop saveOk (pre ++ s :: rest) acc =
      .error (iconFilename s, acc.reverse ++ pre.map mkSaved) := by
  induction pre generalizing acc with
  | nil => simp [mainLoop, hfail]
  | cons t pre' ih =>
      have ht := hpre t (List.mem_cons_self t pre')
      have hpre' : ∀ u ∈ pre', saveOk (iconFilename u) = true := fun u hu =>
        hpre u (List.mem_cons_of_mem t hu)
      rw [List.cons_append, mainLoop, if_pos ht, ih hpre' (mkSaved t :: acc)]
      simp

end GenerateIcons

namespace GenerateIcons

/-- C1: for every size `S` in the fixed list `[16, 48, 128]`, `main` writes a
file named `icons/iconS.png`, saved in PNG format, whose image is
`create_icon(S)`: an RGBA image of width `S` and height `S`. -/
theorem c1_main_writes_png_icons :
    ∀ S ∈ sizes, ∃ e ∈ mainSaves,
      e.name = iconFilename S ∧ e.format = "PNG" ∧ e.img = create_icon S ∧
      e.img.width = S ∧ e.img.height = S ∧ e.img.mode = "RGBA" := by
  intro S hS
  exact ⟨mkSaved S, List.mem_map_of_mem mkSaved hS, rfl, rfl, rfl, rfl, rfl, rfl⟩

/-- C1 witness: instantiated at `S = 16`. -/
theorem c1_witness :
    ∃ e ∈ mainSaves,
      e.name = iconFilename 16 ∧ e.format = "PNG" ∧ e.img = create_icon 16 ∧
      e.img.width = 16 ∧ e.img.height = 16 ∧ e.img.mode = "RGBA" :=
  c1_main_writes_png_icons 16 (by decide)

/-- C2: the process exits with status 1 exactly when the imaging dependency
fails to load; in that case the import guard prints its installation guidance
and manual fallback to standard output and nothing is written; otherwise the
process exits with status 0. -/
theorem c2_exit_status (b : Bool) :
    ((script b).exitCode = 1 ↔ b = false) ∧
    ((script b).exitCode = 0 ↔ b = true) ∧
    (b = false →
      (script b).stdout = importGuardLines ∧ (script b).written = []) := by
  cases b <;> simp [script]

/-- C2 witness: instantiated at `b = false` (the dependency is missing). -/
theorem c2_witness :
    ((script false).exitCode = 1 ↔ false = false) ∧
    ((script false).exitCode = 0 ↔ false = true) ∧
    (false = false →
      (script false).stdout = importGuardLines ∧ (script false).written = []) :=
  c2_exit_status false

/-- C3: for every size in the fixed list, every pixel of `create_icon(S)` is
one of exactly two colors: pixels covered by a drawn shape are white and all
other pixels are the green background. -/
theorem c3_two_colors :
    ∀ S ∈ sizes, ∀ x y : Int,
      (coveredAny (iconOps S) x y = true → (create_icon S).pixel x y = white) ∧
      (coveredAny (iconOps S) x y = false →
        (create_icon S).pixel x y = slackGreen) := by
  intro S _ x y
  refine ⟨fun hc => ?_, fun hc => ?_⟩
  · exact renderPixel_covered (iconOps S) x y hc (iconOps_color_white S) slackGreen
  · exact renderPixel_not_covered (iconOps S) x y hc slackGreen

/-- C3 witness: at size 16, the pixel `(7, 11)` on the circle outline is
white and the corner pixel `(0, 0)` is the green background. -/
theorem c3_witness :
    (create_icon 16).pixel 7 11 = white ∧
    (create_icon 16).pixel 0 0 = slackGreen :=
  ⟨(c3_two_colors 16 (by decide) 7 11).1 (by decide),
   (c3_two_colors 16 (by decide) 0 0).2 (by decide)⟩

/-- C4: `create_icon` consults nothing but its size argument — the embedding
is a pure function — so two invocations at the same size yield identical
images and two runs of the script produce identical outputs. -/
theorem c4_deterministic (S : Int) :
    create_icon S = create_icon S ∧ script true = script true :=
  ⟨rfl, rfl⟩

/-- C5: for every size in the fixed list, every corner point passed to the
drawing calls — ellipse bounding box, handle endpoints, arrow-body endpoints,
arrow-head vertices — lies within the image bounds `[0, S)`. -/
theorem c5_coords_in_bounds :
    ∀ S ∈ sizes, ∀ p ∈ iconCoordPoints S, inBounds S p = true := by
  decide

/-- C5 witness: at size 16, the arrow tip lies within bounds. -/
theorem c5_witness : inBounds 16 (arrowTip 16) = true :=
  c5_coords_in_bounds 16 (by decide) (arrowTip 16) (by decide)

/-- C6: directory creation is idempotent: from any starting filesystem,
`os.makedirs("icons", exist_ok=True)` succeeds, afterwards `icons` exists, and
running it again succeeds without changing anything; from an empty filesystem
it leaves exactly the one directory. -/
theorem c6_makedirs_idempotent :
    (∀ dirs : List String, ∃ d2,
      mainMakedirs dirs = .ok d2 ∧ "icons" ∈ d2 ∧ mainMakedirs d2 = .ok d2) ∧
    mainMakedirs [] = .ok ["icons"] := by
  constructor
  · intro dirs
    by_cases h : "icons" ∈ dirs
    · exact ⟨dirs, by simp [mainMakedirs, makedirs, h], h,
        by simp [mainMakedirs, makedirs, h]⟩
    · refine ⟨"icons" :: dirs, by simp [mainMakedirs, makedirs, h],
        List.mem_cons_self _ _, ?_⟩
      simp [mainMakedirs, makedirs]
  · rfl

/-- C7: if saving fails at some size, the loop raises there — the error
propagates out of `main` carrying the failing filename and exactly the files
written before it, and the sizes after the failing one are never processed
(the result does not depend on them). -/
theorem c7_save_failure_propagates (saveOk : String → Bool)
    (pre post : List Int) (s : Int) (hsplit : sizes = pre ++ s :: post)
    (hpre : ∀ t ∈ pre, saveOk (iconFilename t) = true)
    (hfail : saveOk (iconFilename s) = false) :
    mainLoop saveOk sizes [] = .error (iconFilename s, pre.map mkSaved) := by
  rw [hsplit, mainLoop_error_of_fail saveOk pre hpre s hfail post []]
  simp

/-- C7 witness: saving `icons/icon48.png` fails; the run errors on that file
having written only `icons/icon16.png`, and never reaches size 128. -/
theorem c7_witness :
    mainLoop (fun f => !(f == iconFilename 48)) sizes [] =
      .error (iconFilename 48, [16].map mkSaved) :=
  c7_save_failure_propagates (fun f => !(f == iconFilename 48)) [16] [128] 48
    (by decide) (by decide) (by decide)

/-- C8: every pixel of `create_icon(S)` is fully opaque (alpha 255), the
background color is exactly RGBA `(46, 182, 125, 255)`, and every pixel not
covered by a drawn shape equals that background. -/
theorem c8_opaque_green_background (S x y : Int) :
    ((create_icon S).pixel x y).a = 255 ∧
    slackGreen = ⟨46, 182, 125, 255⟩ ∧
    (coveredAny (iconOps S) x y = false →
      (create_icon S).pixel x y = slackGreen) := by
  refine ⟨?_, rfl, fun hc =>
    renderPixel_not_covered (iconOps S) x y hc slackGreen⟩
  rcases renderPixel_bg_or_white (iconOps S) (iconOps_color_white S)
      slackGreen x y with h | h <;>
    · show (renderPixel slackGreen (iconOps S) x y).a = 255
      rw [h]
      rfl

/-- C8 witness: at size 16, pixel `(0, 0)` has alpha 255 and, being uncovered,
equals the green background. -/
theorem c8_witness :
    ((create_icon 16).pixel 0 0).a = 255 ∧
    (create_icon 16).pixel 0 0 = slackGreen :=
  ⟨(c8_opaque_green_background 16 0 0).1,
   (c8_opaque_green_background 16 0 0).2.2 (by decide)⟩

/-- C9: for every size, the circle outline and handle strokes use width
`max(2, size // 16) ≥ 2` and the arrow-body stroke uses width
`max(1, size // 24) ≥ 1`, so every stroked shape has positive width. -/
theorem c9_stroke_widths_clamped (S : Int) :
    circle_width S = max 2 (pyDiv S 16) ∧ 2 ≤ circle_width S ∧
    handle_width S = max 2 (pyDiv S 16) ∧ 2 ≤ handle_width S ∧
    arrow_width S = max 1 (pyDiv S 24) ∧ 1 ≤ arrow_width S :=
  ⟨rfl, le_max_left _ _, rfl, le_max_left _ _, rfl, le_max_left _ _⟩

/-- C10: for every size, the download arrow is left-right symmetric about
`x = circle_x`: both arrow-body endpoints and the arrow-head tip have
x-coordinate `circle_x`, and the two base vertices sit at offsets
`arrow_size // 3` on either side at the same y-coordinate. -/
theorem c10_arrow_symmetric (S : Int) :
    (arrowBodyP1 S).1 = circle_x S ∧ (arrowBodyP2 S).1 = circle_x S ∧
    (arrowTip S).1 = circle_x S ∧
    (arrowBaseL S).1 = circle_x S - pyDiv (arrow_size S) 3 ∧
    (arrowBaseR S).1 = circle_x S + pyDiv (arrow_size S) 3 ∧
    (arrowBaseL S).2 = (arrowBaseR S).2 :=
  ⟨rfl, rfl, rfl, rfl, rfl, rfl⟩

end GenerateIcons
